import Mathlib

/-
Verification development for the sas2py dataset-comparison engine
(src/sas2py/compare/macros.py).

Modelling conventions:
* A pandas cell value is `Val`: a distinguished missing marker (NaN / NA,
  everything `pd.isna` accepts), an exact rational for numeric payloads
  (float arithmetic is modelled by exact rational arithmetic), or a string.
* A pandas column is its name, its dtype kind character (`dtype.kind`,
  e.g. 'f' float, 'c' complex, 'i' integer, 'O' object) and its cell list.
* A DataFrame is a `Table`: a row count and an ordered column list.
* Python `set`s of strings are modelled as `Finset String`; where the code
  materialises a set into a list in unspecified order, claims are stated
  at the set level.
* `np.isclose(a, b, rtol, atol)` is `abs (a - b) <= atol + rtol * abs b`,
  which is numpy's documented formula.
-/

namespace SAS

/-- Cell values: the missing marker, numeric payloads (exact rationals),
or text. -/
inductive Val where
  | missing : Val
  | num : ℚ → Val
  | str : String → Val
deriving DecidableEq

/-- Models `pd.isna` on a cell. -/
def Val.isMissing : Val → Bool
  | .missing => true
  | _ => false

/-- True exactly on text cells. -/
def Val.isStr : Val → Bool
  | .str _ => true
  | _ => false

/-- The `issue` strings appearing in difference records of macros.py:
`row_count_mismatch`, `missing_value_mismatch`, `value_mismatch`. -/
inductive Issue where
  | row_count_mismatch : Issue
  | missing_value_mismatch : Issue
  | value_mismatch : Issue
deriving DecidableEq

/-- A difference record (the dicts appended to the differences lists in
macros.py).  Keys that a given record kind does not carry are `none`. -/
structure Difference where
  by_values : Option (List Val)
  var : Option String
  row : Option Nat
  base_value : Option Val
  comp_value : Option Val
  issue : Issue
  difference : Option ℚ
  base_rows : Option Nat
  comp_rows : Option Nat
deriving DecidableEq

/-- A per-cell difference record: `by_values` is set in keyed mode only
(lines 191-232 of macros.py) and absent in positional mode. -/
def mkCellDiff (key : Option (List Val)) (name : String) (i : Nat)
    (a b : Val) (iss : Issue) (d : Option ℚ) : Difference :=
  ⟨key, some name, some i, some a, some b, iss, d, none, none⟩

/-- Absolute value on ℚ written as an executable conditional
(provably equal to `|q|`, see `ratAbs_eq_abs`). -/
def ratAbs (q : ℚ) : ℚ := if q < 0 then -q else q

/-- Binary maximum on ℚ written as an executable conditional
(provably equal to `max x y`, see `ratMax_eq_max`). -/
def ratMax (x y : ℚ) : ℚ := if x ≤ y then y else x

/-- Models `np.isclose(base_val, comp_val, rtol, atol)` on numeric cells:
`abs(a-b) <= atol + rtol*abs(b)` where `b` is the comparison value.
Non-numeric arguments never reach this test in the code (a float-kind
column holds floats or NaN); on them the model returns false. -/
def valIsClose (atol rtol : ℚ) : Val → Val → Bool
  | .num a, .num b => decide (ratAbs (a - b) ≤ atol + rtol * ratAbs b)
  | _, _ => false

/-- The numeric delta `comp_val - base_val` stored under `difference`. -/
def valSub : Val → Val → Option ℚ
  | .num x, .num y => some (x - y)
  | _, _ => none

/-- The per-cell comparison loop shared by the four `enumerate(zip(...))`
loops of macros.py (lines 187-232 keyed, 250-291 positional); `isFloat`
selects the float branch (tolerance test, delta recorded) versus the
exact-equality branch.  Both branches first handle missing values:
both missing is silently equal, exactly one missing emits a
`missing_value_mismatch` record. -/
def cellLoop (isFloat : Bool) (atol rtol : ℚ) (key : Option (List Val))
    (name : String) : Nat → List (Val × Val) → List Difference
  | _, [] => []
  | i, (a, b) :: rest =>
    if a.isMissing && b.isMissing then
      cellLoop isFloat atol rtol key name (i + 1) rest
    else if a.isMissing || b.isMissing then
      mkCellDiff key name i a b Issue.missing_value_mismatch none ::
        cellLoop isFloat atol rtol key name (i + 1) rest
    else if isFloat then
      if valIsClose atol rtol a b then
        cellLoop isFloat atol rtol key name (i + 1) rest
      else
        mkCellDiff key name i a b Issue.value_mismatch (valSub b a) ::
          cellLoop isFloat atol rtol key name (i + 1) rest
    else
      if a = b then
        cellLoop isFloat atol rtol key name (i + 1) rest
      else
        mkCellDiff key name i a b Issue.value_mismatch none ::
          cellLoop isFloat atol rtol key name (i + 1) rest

/-- Models `dtype.kind in 'fc'` (floating or complex). -/
def kindFC (k : Char) : Bool := k = 'f' || k = 'c'

/-- A pandas column: name, dtype kind character, cells. -/
structure Column where
  name : String
  kind : Char
  vals : List Val
deriving DecidableEq

/-- A DataFrame: row count and ordered columns. -/
structure Table where
  nrows : Nat
  cols : List Column
deriving DecidableEq

/-- Membership of a column name, models `b in df.columns`. -/
def Table.hasCol (t : Table) (n : String) : Bool :=
  t.cols.any (fun c => c.name == n)

/-- Column lookup `df[n]` (column names assumed unique, as pandas scalar
column access requires). -/
def Table.findCol (t : Table) (n : String) : Option Column :=
  t.cols.find? (fun c => c.name == n)

/-- The column-name list of a table. -/
def Table.colNames (t : Table) : List String := t.cols.map Column.name

/-- `set(df.columns)`. -/
def Table.varset (t : Table) : Finset String := t.colNames.toFinset

/-- Positional comparison of one shared column (lines 245-291): both
series truncated to `min_rows`, float branch chosen iff both dtype kinds
are in 'fc'. -/
def processColumn (atol rtol : ℚ) (bc cc : Column) (minRows : Nat) :
    List Difference :=
  cellLoop (kindFC bc.kind && kindFC cc.kind) atol rtol none bc.name 0
    ((bc.vals.take minRows).zip (cc.vals.take minRows))

/-- Differences contributed by one base column in positional mode: nothing
when the column is missing from `comp` (only `common_vars` are visited). -/
def lookupColumnDiffs (comp : Table) (atol rtol : ℚ) (minRows : Nat)
    (bc : Column) : List Difference :=
  match comp.findCol bc.name with
  | some cc => processColumn atol rtol bc cc minRows
  | none => []

/-- The record appended at lines 235-239 when positional row counts
differ. -/
def rowCountDiff (br cr : Nat) : Difference :=
  ⟨none, none, none, none, none, Issue.row_count_mismatch, none, some br, some cr⟩

/-- The positional branch of `compare` (lines 233-291): one report-level
row-count record when lengths differ, then per-column comparison over the
shared columns truncated to `min(len(base), len(comp))` rows.  The code
iterates `list(set & set)` in unspecified order; the model iterates base
column order (claims are order-insensitive). -/
def positionalDifferences (base comp : Table) (atol rtol : ℚ) :
    List Difference :=
  (if base.nrows ≠ comp.nrows then [rowCountDiff base.nrows comp.nrows] else [])
    ++ (base.cols.map
          (lookupColumnDiffs comp atol rtol (min base.nrows comp.nrows))).flatten

/-- The comparison report returned by `compare` (the keyed-only group
statistics of lines 156-159 are not modelled; no claim mentions them). -/
structure Report where
  row_count_match : Bool
  base_rows : Nat
  comp_rows : Nat
  column_count_match : Bool
  base_columns : Nat
  comp_columns : Nat
  column_names_match : Bool
  differences : List Difference
  match_ : Bool
  difference_count : Nat
deriving DecidableEq

/-- The report skeleton of lines 131-140 together with the finalisation of
lines 293-294: `match` is `len(differences) == 0` and `difference_count`
is `len(differences)`. -/
def mkBaseReport (base comp : Table) (ds : List Difference) : Report :=
  ⟨base.nrows == comp.nrows, base.nrows, comp.nrows,
   base.cols.length == comp.cols.length, base.cols.length, comp.cols.length,
   decide (base.varset = comp.varset), ds, ds.length == 0, ds.length⟩

/-- The mode test of line 142: `by` truthy (non-empty) and every `by`
column present in both tables. -/
def keyedMode (base comp : Table) (byCols : List String) : Bool :=
  !byCols.isEmpty && byCols.all (fun b => base.hasCol b)
    && byCols.all (fun b => comp.hasCol b)

/-- The report produced by the keyed branch (lines 142-232): the branch
accumulates its records in the local list `differences` (line 161) which
is never copied into `result`, so the returned report keeps the empty
`differences` list initialised at line 139. -/
def keyedReport (base comp : Table) : Report :=
  mkBaseReport base comp []

/-- The report produced by the positional branch. -/
def positionalReport (base comp : Table) (atol rtol : ℚ) : Report :=
  mkBaseReport base comp (positionalDifferences base comp atol rtol)

/-- Default `numeric_abs_tol = 1.0e-9` of `compare`. -/
def numeric_abs_tol : ℚ := 1 / 1000000000

/-- Default `numeric_rel_tol = 1.0e-6` of `compare`. -/
def numeric_rel_tol : ℚ := 1 / 1000000

/-- `compare(base, comp, by, numeric_abs_tol, numeric_rel_tol)`
(lines 110-296). -/
def compare (base comp : Table) (byCols : List String) (atol rtol : ℚ) :
    Report :=
  if keyedMode base comp byCols then keyedReport base comp
  else positionalReport base comp atol rtol

/-- The keyed branch's local accumulation for one common key and one
shared non-key column (lines 171-232): when the two groups' lengths
differ a single `row_count_mismatch` record is appended and the column is
skipped (`continue`); otherwise the per-cell loop runs over the fully
zipped groups. -/
def keyedColumnDiffs (atol rtol : ℚ) (key : List Val) (name : String)
    (isFloat : Bool) (bvals cvals : List Val) : List Difference :=
  if bvals.length ≠ cvals.length then
    [⟨some key, some name, none, none, none, Issue.row_count_mismatch, none,
      some bvals.length, some cvals.length⟩]
  else
    cellLoop isFloat atol rtol (some key) name 0 (bvals.zip cvals)

/-- `compvars` (lines 15-38): set differences and intersection of the two
column-name sets.  The code materialises each set into a list in
unspecified order; the model keeps the sets. -/
def compvars (ds1 ds2 : Table) : Finset String × Finset String × Finset String :=
  ⟨ds1.varset \ ds2.varset, ds2.varset \ ds1.varset, ds1.varset ∩ ds2.varset⟩

/-- Exceptions relevant to `complibs`: the code raises `ValueError`
(lines 55, 57); `DirectoryNotFoundError` is the exception the spec names
and occurs nowhere in the code — included so that statement about it can
be made. -/
inductive PyError where
  | valueError : String → PyError
  | directoryNotFoundError : String → PyError
deriving DecidableEq

/-- Whether an exception is the spec's `DirectoryNotFoundError`. -/
def PyError.isDirectoryNotFound : PyError → Bool
  | .directoryNotFoundError _ => true
  | _ => false

/-- A library path as `complibs` observes it: whether `os.path.isdir`
holds and the directory listing. -/
structure Library where
  isdir : Bool
  files : List String
deriving DecidableEq

/-- The dataset names of a listing (lines 59-63): files whose lowercased
name ends in `.sas7bdat`, stripped of that extension and lowercased. -/
def sasDatasetNames (files : List String) : List String :=
  (files.filter (fun f => f.toLower.endsWith ".sas7bdat")).map
    (fun f => (f.dropRight 9).toLower)

/-- `complibs` validation and dataset discovery (lines 41-67): a
non-directory path raises `ValueError`; otherwise the common dataset
names (a Python set) are the pairs that would be compared.  The
per-dataset loading and comparison loop (lines 69-105) is I/O driven and
beyond the claims about this function. -/
def complibs (lib1 lib2 : Library) : Except PyError (Finset String) :=
  if !lib1.isdir then
    Except.error (PyError.valueError "First library path is not a directory")
  else if !lib2.isdir then
    Except.error (PyError.valueError "Second library path is not a directory")
  else
    Except.ok ((sasDatasetNames lib1.files).toFinset ∩
      (sasDatasetNames lib2.files).toFinset)

/-- The spec's numeric equality rule, written from the spec's words
(section 4.2 rule 3) for comparison with the code's `valIsClose`:
within absolute tolerance OR within relative tolerance of the
larger-magnitude operand. -/
def specNumericEqual (atol rtol a b : ℚ) : Prop :=
  ratAbs (a - b) ≤ atol ∨ ratAbs (a - b) ≤ rtol * ratMax (ratAbs a) (ratAbs b)

/-- Well-formedness of a table model: column names are unique (pandas
scalar column access in the code requires this) and float/complex-kind
columns hold no text cells (a float64 column cannot contain a string). -/
def Table.WF (t : Table) : Prop :=
  t.colNames.Nodup ∧
    ∀ c ∈ t.cols, kindFC c.kind = true → ∀ v ∈ c.vals, v.isStr = false

/-- Table A of end-to-end scenario 1: `{id:[1,2,3], value:[10.0,20.0,30.0]}`. -/
def tableA : Table :=
  ⟨3, [⟨"id", 'i', [Val.num 1, Val.num 2, Val.num 3]⟩,
       ⟨"value", 'f', [Val.num 10, Val.num 20, Val.num 30]⟩]⟩

/-- Table B of end-to-end scenario 1: `{id:[1,2,3], value:[10.0,20.5,30.0]}`. -/
def tableB : Table :=
  ⟨3, [⟨"id", 'i', [Val.num 1, Val.num 2, Val.num 3]⟩,
       ⟨"value", 'f', [Val.num 10, Val.num (41 / 2), Val.num 30]⟩]⟩

/-- A variant of table B without the `id` key column. -/
def tableNoId : Table :=
  ⟨3, [⟨"value", 'f', [Val.num 10, Val.num 20, Val.num 30]⟩]⟩

/-- A small table with a missing value, used to instantiate self-comparison. -/
def tableC : Table :=
  ⟨2, [⟨"id", 'i', [Val.num 1, Val.num 2]⟩,
       ⟨"v", 'f', [Val.missing, Val.num 3]⟩]⟩

/-- The executable `ratAbs` is the mathematical absolute value. -/
theorem ratAbs_eq_abs (q : ℚ) : ratAbs q = |q| := by
  unfold ratAbs
  by_cases h : q < 0
  · rw [if_pos h, abs_of_neg h]
  · rw [if_neg h, abs_of_nonneg (le_of_not_lt h)]

/-- The executable `ratMax` is the mathematical maximum. -/
theorem ratMax_eq_max (x y : ℚ) : ratMax x y = max x y := by
  unfold ratMax
  by_cases h : x ≤ y
  · rw [if_pos h, max_eq_right h]
  · rw [if_neg h, max_eq_left (le_of_not_le h)]

/-- C1: evaluating `compare` on the scenario-1 tables with `by=['id']`
shows the code at the failing input: the returned report has
`match == True` and an empty differences list, because the keyed branch
discards its locally accumulated records; yet the record that branch
computed (and dropped) for the key-2 group of column `value` is exactly
the VALUE_MISMATCH record with difference 0.5 that the claim (and the
spec scenario) expects. -/
theorem C1_keyed_scenario_report_is_empty :
    (compare tableA tableB ["id"] numeric_abs_tol numeric_rel_tol).match_ = true ∧
    (compare tableA tableB ["id"] numeric_abs_tol numeric_rel_tol).differences = [] ∧
    (compare tableA tableB ["id"] numeric_abs_tol numeric_rel_tol).difference_count = 0 ∧
    keyedColumnDiffs numeric_abs_tol numeric_rel_tol [Val.num 2] "value" true
        [Val.num 20] [Val.num (41 / 2)] =
      [mkCellDiff (some [Val.num 2]) "value" 0 (Val.num 20) (Val.num (41 / 2))
        Issue.value_mismatch (some (1 / 2))] := by
  refine ⟨by decide, by decide, by decide, ?_⟩
  norm_num [keyedColumnDiffs, cellLoop, valIsClose, valSub, Val.isMissing,
    mkCellDiff, numeric_abs_tol, numeric_rel_tol, ratAbs]

/-- C2: whenever the keyed branch is selected (non-empty `by`, all key
columns present in both tables), the returned report has an empty
differences list, zero difference count and `match == True`, for all
tables: the keyed branch never copies its local list into the result. -/
theorem C2_keyed_report_always_matches (base comp : Table)
    (byCols : List String) (atol rtol : ℚ)
    (hne : byCols ≠ [])
    (hb : ∀ b ∈ byCols, base.hasCol b = true)
    (hc : ∀ b ∈ byCols, comp.hasCol b = true) :
    (compare base comp byCols atol rtol).differences = [] ∧
    (compare base comp byCols atol rtol).difference_count = 0 ∧
    (compare base comp byCols atol rtol).match_ = true := by
  have hk : keyedMode base comp byCols = true := by
    unfold keyedMode
    rcases byCols with _ | ⟨x, xs⟩
    · exact absurd rfl hne
    · simp only [List.isEmpty_cons, Bool.not_false, Bool.true_and,
        Bool.and_eq_true, List.all_eq_true]
      exact ⟨fun b hmem => hb b hmem, fun b hmem => hc b hmem⟩
  simp [compare, hk, keyedReport, mkBaseReport]

/-- Witness for C2 at a concrete input with an actual cell difference. -/
theorem C2_keyed_report_always_matches_witness :
    (compare tableA tableB ["id"] numeric_abs_tol numeric_rel_tol).differences = [] ∧
    (compare tableA tableB ["id"] numeric_abs_tol numeric_rel_tol).difference_count = 0 ∧
    (compare tableA tableB ["id"] numeric_abs_tol numeric_rel_tol).match_ = true :=
  C2_keyed_report_always_matches tableA tableB ["id"] numeric_abs_tol
    numeric_rel_tol (by decide) (by decide) (by decide)

/-- C3 counterexample: at the default tolerances, base value
10000000 + 10 + 1/200000 and comparison value 10000000 satisfy the
claimed rule `abs(a-b) <= abs_tol OR abs(a-b) <= rel_tol * max(abs a, abs b)`,
yet the code (numpy `isclose` against the comparison operand only)
classifies the pair as a VALUE_MISMATCH and emits a record. -/
theorem C3_spec_rule_disagrees_with_code :
    specNumericEqual numeric_abs_tol numeric_rel_tol
        (10000000 + 10 + 1 / 200000) 10000000 ∧
    cellLoop true numeric_abs_tol numeric_rel_tol none "value" 0
        [(Val.num (10000000 + 10 + 1 / 200000), Val.num 10000000)] ≠ [] := by
  constructor
  · right
    norm_num [numeric_rel_tol, ratAbs, ratMax]
  · norm_num [cellLoop, valIsClose, valSub, Val.isMissing, mkCellDiff,
      numeric_abs_tol, numeric_rel_tol, ratAbs]

/-- C3 amended: for non-missing numeric cells the code classifies `a`
(base) and `b` (comp) as equal iff `abs(a-b) <= abs_tol + rel_tol * abs(b)`
— numpy's `isclose`: the two tolerances are summed and the relative
tolerance scales only the comparison-side operand. -/
theorem C3_amended_isclose_rule (atol rtol a b : ℚ) (key : Option (List Val))
    (name : String) (i : Nat) :
    cellLoop true atol rtol key name i [(Val.num a, Val.num b)] = [] ↔
      |a - b| ≤ atol + rtol * |b| := by
  by_cases h : |a - b| ≤ atol + rtol * |b|
  · simp [cellLoop, Val.isMissing, valIsClose, ratAbs_eq_abs, h]
  · simp [cellLoop, Val.isMissing, valIsClose, ratAbs_eq_abs, h, mkCellDiff]

/-- C4 counterexample: for groups of lengths 2 and 1 whose overlapping
position-0 cells differ far beyond tolerance, the keyed accumulator
emits only the `row_count_mismatch` record — the `continue` skips the
column — although running the per-cell comparator on the min-truncated
pair would have emitted a VALUE_MISMATCH record, refuting the claim that
per-position comparison still proceeds up to the shorter length. -/
theorem C4_rowcount_group_emits_no_cell_records :
    keyedColumnDiffs numeric_abs_tol numeric_rel_tol [Val.num 1] "v" true
        [Val.num 0, Val.num 7] [Val.num 5] =
      [⟨some [Val.num 1], some "v", none, none, none, Issue.row_count_mismatch,
        none, some 2, some 1⟩] ∧
    cellLoop true numeric_abs_tol numeric_rel_tol (some [Val.num 1]) "v" 0
        [(Val.num 0, Val.num 5)] =
      [mkCellDiff (some [Val.num 1]) "v" 0 (Val.num 0) (Val.num 5)
        Issue.value_mismatch (some 5)] := by
  constructor
  · norm_num [keyedColumnDiffs]
  · norm_num [cellLoop, valIsClose, valSub, Val.isMissing, mkCellDiff,
      numeric_abs_tol, numeric_rel_tol, ratAbs]

/-- C4 amended: when the two groups for a common key have different
lengths, the keyed accumulator emits exactly one record for that
(key, column) — a `row_count_mismatch` — raises no error, and skips the
per-position cell comparison for that group pair entirely. -/
theorem C4_amended_rowcount_skips_column (atol rtol : ℚ) (key : List Val)
    (name : String) (isFloat : Bool) (bvals cvals : List Val)
    (h : bvals.length ≠ cvals.length) :
    keyedColumnDiffs atol rtol key name isFloat bvals cvals =
      [⟨some key, some name, none, none, none, Issue.row_count_mismatch, none,
        some bvals.length, some cvals.length⟩] := by
  simp [keyedColumnDiffs, h]

/-- Witness for the amended C4 at a concrete group pair. -/
theorem C4_amended_rowcount_skips_column_witness :
    keyedColumnDiffs numeric_abs_tol numeric_rel_tol [Val.num 1] "w" false
        [Val.missing] [] =
      [⟨some [Val.num 1], some "w", none, none, none, Issue.row_count_mismatch,
        none, some 1, some 0⟩] :=
  C4_amended_rowcount_skips_column numeric_abs_tol numeric_rel_tol [Val.num 1]
    "w" false [Val.missing] [] (by decide)

/-- C5: in every branch of the cell comparison loop, two missing cells
are classified equal and emit nothing, and a pair with exactly one
missing cell emits a `missing_value_mismatch` record (whose issue is not
`value_mismatch`) — the missing checks precede both the tolerance test
and exact equality. -/
theorem C5_missing_rules_have_priority (isFloat : Bool) (atol rtol : ℚ)
    (key : Option (List Val)) (name : String) (i : Nat) (a b : Val)
    (rest : List (Val × Val)) :
    (a.isMissing = true → b.isMissing = true →
      cellLoop isFloat atol rtol key name i ((a, b) :: rest) =
        cellLoop isFloat atol rtol key name (i + 1) rest) ∧
    (a.isMissing ≠ b.isMissing →
      cellLoop isFloat atol rtol key name i ((a, b) :: rest) =
        mkCellDiff key name i a b Issue.missing_value_mismatch none ::
          cellLoop isFloat atol rtol key name (i + 1) rest ∧
      Issue.missing_value_mismatch ≠ Issue.value_mismatch) := by
  constructor
  · intro ha hb
    simp [cellLoop, ha, hb]
  · intro hab
    cases ha : a.isMissing <;> cases hb : b.isMissing
    · rw [ha, hb] at hab
      exact absurd rfl hab
    · exact ⟨by simp [cellLoop, ha, hb], by decide⟩
    · exact ⟨by simp [cellLoop, ha, hb], by decide⟩
    · rw [ha, hb] at hab
      exact absurd rfl hab

/-- Witness for C5 at concrete cells: two missing cells emit nothing and
a (missing, text) pair emits one MISSING record. -/
theorem C5_missing_rules_have_priority_witness :
    cellLoop true numeric_abs_tol numeric_rel_tol none "m" 0
        [(Val.missing, Val.missing)] = [] ∧
    cellLoop false numeric_abs_tol numeric_rel_tol none "m" 0
        [(Val.missing, Val.str "x")] =
      [mkCellDiff none "m" 0 Val.missing (Val.str "x")
        Issue.missing_value_mismatch none] := by
  constructor
  · have h := (C5_missing_rules_have_priority true numeric_abs_tol
      numeric_rel_tol none "m" 0 Val.missing Val.missing []).1 rfl rfl
    simpa [cellLoop] using h
  · have h := ((C5_missing_rules_have_priority false numeric_abs_tol
      numeric_rel_tol none "m" 0 Val.missing (Val.str "x") []).2
        (by decide)).1
    simpa [cellLoop] using h

/-- C6 counterexample: a non-directory first path makes `complibs` raise
`ValueError`, which is not the `DirectoryNotFoundError` the claim names;
and a readable directory containing no tabular-format files raises
nothing at all — the call succeeds with an empty comparison set. -/
theorem C6_complibs_raises_valueerror_not_dnf :
    complibs ⟨false, []⟩ ⟨true, ["demo.sas7bdat"]⟩ =
      Except.error (PyError.valueError "First library path is not a directory") ∧
    PyError.isDirectoryNotFound
      (PyError.valueError "First library path is not a directory") = false ∧
    complibs ⟨true, []⟩ ⟨true, []⟩ = Except.ok ∅ := by
  refine ⟨rfl, rfl, ?_⟩
  simp [complibs, sasDatasetNames]

/-- C6 amended: `complibs` raises `ValueError` (not
`DirectoryNotFoundError`) when either path is not a directory; when both
paths are directories no error is raised, even if they contain no
tabular-format files. -/
theorem C6_amended_complibs_valueerror (lib1 lib2 : Library)
    (h : lib1.isdir = false ∨ lib2.isdir = false) :
    ∃ m, complibs lib1 lib2 = Except.error (PyError.valueError m) := by
  cases h1 : lib1.isdir
  · exact ⟨"First library path is not a directory", by simp [complibs, h1]⟩
  · rcases h with h | h
    · rw [h1] at h
      exact absurd h (by simp)
    · exact ⟨"Second library path is not a directory",
        by simp [complibs, h1, h]⟩

/-- Witness for the amended C6 at concrete libraries. -/
theorem C6_amended_complibs_valueerror_witness :
    ∃ m, complibs ⟨false, []⟩ ⟨true, []⟩ =
      Except.error (PyError.valueError m) :=
  C6_amended_complibs_valueerror ⟨false, []⟩ ⟨true, []⟩ (Or.inl rfl)

/-- C7: when `by` is non-empty but some named key column is absent from
either table, no error is raised and `compare` produces exactly the
positional-mode report, which compares the tables index-for-index with
no sorting or grouping. -/
theorem C7_absent_key_falls_back_to_positional (base comp : Table)
    (byCols : List String) (atol rtol : ℚ) (b : String)
    (_hne : byCols ≠ []) (hmem : b ∈ byCols)
    (habs : base.hasCol b = false ∨ comp.hasCol b = false) :
    compare base comp byCols atol rtol = positionalReport base comp atol rtol := by
  cases hk : keyedMode base comp byCols
  · simp [compare, hk]
  · exfalso
    unfold keyedMode at hk
    simp only [Bool.and_eq_true, List.all_eq_true] at hk
    rcases hk with ⟨⟨_, h1⟩, h2⟩
    rcases habs with h | h
    · rw [h1 b hmem] at h
      exact Bool.noConfusion h
    · rw [h2 b hmem] at h
      exact Bool.noConfusion h

/-- Witness for C7: comparing against a table lacking the `id` key. -/
theorem C7_absent_key_falls_back_to_positional_witness :
    compare tableA tableNoId ["id"] numeric_abs_tol numeric_rel_tol =
      positionalReport tableA tableNoId numeric_abs_tol numeric_rel_tol :=
  C7_absent_key_falls_back_to_positional tableA tableNoId ["id"]
    numeric_abs_tol numeric_rel_tol "id" (by decide) (by decide)
    (Or.inr (by decide))

/-- C8: the three collections computed by `compvars` are pairwise
disjoint, their union is the union of the two column-name sets, and
`compvars(A, A)` is `(∅, ∅, columns(A))`. -/
theorem C8_compvars_partition (ds1 ds2 A : Table) :
    Disjoint (compvars ds1 ds2).1 (compvars ds1 ds2).2.1 ∧
    Disjoint (compvars ds1 ds2).1 (compvars ds1 ds2).2.2 ∧
    Disjoint (compvars ds1 ds2).2.1 (compvars ds1 ds2).2.2 ∧
    (compvars ds1 ds2).1 ∪ (compvars ds1 ds2).2.1 ∪ (compvars ds1 ds2).2.2 =
      ds1.varset ∪ ds2.varset ∧
    compvars A A = (∅, ∅, A.varset) := by
  refine ⟨?_, ?_, ?_, ?_, ?_⟩
  · rw [Finset.disjoint_left]
    intro a ha hb
    simp only [compvars, Finset.mem_sdiff] at ha hb
    exact hb.2 ha.1
  · rw [Finset.disjoint_left]
    intro a ha hb
    simp only [compvars, Finset.mem_sdiff, Finset.mem_inter] at ha hb
    exact ha.2 hb.2
  · rw [Finset.disjoint_left]
    intro a ha hb
    simp only [compvars, Finset.mem_sdiff, Finset.mem_inter] at ha hb
    exact ha.2 hb.1
  · ext a
    simp only [compvars, Finset.mem_union, Finset.mem_sdiff, Finset.mem_inter]
    tauto
  · simp [compvars]

/-- C10: per shared column, the tolerance rule applies exactly when both
dtype kinds are floating/complex; in every other kind combination the
cells are compared by exact equality, with the tolerances ignored. -/
theorem C10_tolerance_only_for_float_dtypes (k1 k2 : Char) (nm1 nm2 : String)
    (atol rtol a b : ℚ) :
    ((kindFC k1 && kindFC k2) = false →
      (processColumn atol rtol ⟨nm1, k1, [Val.num a]⟩ ⟨nm2, k2, [Val.num b]⟩ 1 = []
        ↔ a = b)) ∧
    ((kindFC k1 && kindFC k2) = true →
      (processColumn atol rtol ⟨nm1, k1, [Val.num a]⟩ ⟨nm2, k2, [Val.num b]⟩ 1 = []
        ↔ |a - b| ≤ atol + rtol * |b|)) := by
  constructor
  · intro h
    by_cases hab : a = b
    · simp [processColumn, h, cellLoop, Val.isMissing, hab]
    · simp [processColumn, h, cellLoop, Val.isMissing, hab, mkCellDiff]
  · intro h
    by_cases hcl : |a - b| ≤ atol + rtol * |b|
    · simp [processColumn, h, cellLoop, Val.isMissing, valIsClose,
        ratAbs_eq_abs, hcl]
    · simp [processColumn, h, cellLoop, Val.isMissing, valIsClose,
        ratAbs_eq_abs, hcl, mkCellDiff]

/-- Witness for C10: an integer-kind column against a float-kind column
is compared exactly, so even a huge absolute tolerance does not make 1
equal to 2. -/
theorem C10_tolerance_only_for_float_dtypes_witness :
    processColumn 1000 0 ⟨"x", 'i', [Val.num 1]⟩ ⟨"x", 'f', [Val.num 2]⟩ 1 = []
      ↔ (1 : ℚ) = 2 :=
  (C10_tolerance_only_for_float_dtypes 'i' 'f' "x" "x" 1000 0 1 2).1 (by decide)

/-- Auxiliary: the per-cell loop emits nothing on a list zipped with
itself, provided the tolerances are nonnegative and, when the float
branch is selected, no cell is text. -/
theorem cellLoop_zip_self_eq_nil (isFloat : Bool) (atol rtol : ℚ)
    (h0a : 0 ≤ atol) (h0r : 0 ≤ rtol) (key : Option (List Val))
    (name : String) :
    ∀ (i : Nat) (l : List Val),
      (∀ v ∈ l, isFloat = true → v.isStr = false) →
      cellLoop isFloat atol rtol key name i (l.zip l) = [] := by
  intro i l
  induction l generalizing i with
  | nil =>
    intro _
    simp [cellLoop]
  | cons v tl ih =>
    intro hv
    have htl : ∀ w ∈ tl, isFloat = true → w.isStr = false :=
      fun w hw => hv w (List.mem_cons_of_mem _ hw)
    rw [List.zip_cons_cons]
    cases v with
    | missing =>
      simp [cellLoop, Val.isMissing, ih (i + 1) htl]
    | num q =>
      have hclose : valIsClose atol rtol (Val.num q) (Val.num q) = true := by
        simp only [valIsClose, ratAbs_eq_abs, sub_self, abs_zero,
          decide_eq_true_eq]
        exact add_nonneg h0a (mul_nonneg h0r (abs_nonneg q))
      cases isFloat
      · simp [cellLoop, Val.isMissing, ih (i + 1) htl]
      · simp [cellLoop, Val.isMissing, hclose, ih (i + 1) htl]
    | str s =>
      cases hF : isFloat
      · rw [hF] at ih htl
        simp [cellLoop, Val.isMissing, ih (i + 1) htl]
      · have hfalse := hv (Val.str s) (List.mem_cons_self _ _) (by rw [hF])
        simp [Val.isStr] at hfalse

/-- Auxiliary: with unique column names, looking a column of a list up
by its own name finds exactly that column. -/
theorem find_col_self (l : List Column) (bc : Column)
    (hnd : (l.map Column.name).Nodup) (hm : bc ∈ l) :
    l.find? (fun c => c.name == bc.name) = some bc := by
  induction l with
  | nil => cases hm
  | cons c tl ih =>
    simp only [List.map_cons, List.nodup_cons] at hnd
    rcases List.mem_cons.mp hm with h | h
    · subst h
      rw [List.find?_cons_of_pos _ (by simp)]
    · have hne : c.name ≠ bc.name := by
        intro he
        exact hnd.1 (he ▸ List.mem_map_of_mem Column.name h)
      rw [List.find?_cons_of_neg _ (by simp [hne])]
      exact ih hnd.2 h

/-- Auxiliary: positional comparison of a well-formed table against
itself finds no differences at the default tolerances. -/
theorem positionalDifferences_self_eq_nil (A : Table) (h : A.WF) :
    positionalDifferences A A numeric_abs_tol numeric_rel_tol = [] := by
  unfold positionalDifferences
  rw [if_neg (by simp)]
  simp only [List.nil_append, List.flatten_eq_nil_iff, List.mem_map]
  rintro l ⟨bc, hbc, rfl⟩
  have hfind : A.findCol bc.name = some bc := find_col_self A.cols bc h.1 hbc
  unfold lookupColumnDiffs
  rw [hfind]
  unfold processColumn
  apply cellLoop_zip_self_eq_nil
  · norm_num [numeric_abs_tol]
  · norm_num [numeric_rel_tol]
  · intro v hv hf
    have hk : kindFC bc.kind = true := by
      simpa using hf
    exact h.2 bc hbc hk v (List.take_subset _ _ hv)

/-- C9: comparing any well-formed table (missing values allowed) to an
exact copy of itself, with any key-column list — keyed or positional
mode — yields `match == True`, zero difference count and matching row
counts at the default tolerances. -/
theorem C9_self_comparison_matches (A : Table) (byCols : List String)
    (h : A.WF) :
    (compare A A byCols numeric_abs_tol numeric_rel_tol).match_ = true ∧
    (compare A A byCols numeric_abs_tol numeric_rel_tol).difference_count = 0 ∧
    (compare A A byCols numeric_abs_tol numeric_rel_tol).row_count_match = true := by
  cases hk : keyedMode A A byCols
  · have hp := positionalDifferences_self_eq_nil A h
    simp [compare, hk, positionalReport, mkBaseReport, hp]
  · simp [compare, hk, keyedReport, mkBaseReport]

/-- Witness for C9 on a concrete table containing a missing value,
exercising the positional branch. -/
theorem C9_self_comparison_matches_witness :
    (compare tableC tableC [] numeric_abs_tol numeric_rel_tol).match_ = true ∧
    (compare tableC tableC [] numeric_abs_tol numeric_rel_tol).difference_count = 0 ∧
    (compare tableC tableC [] numeric_abs_tol numeric_rel_tol).row_count_match = true :=
  C9_self_comparison_matches tableC [] (by constructor <;> decide)

end SAS
